import Mathlib

/-!
Verification development for the SmartRentalMachine front-end: a shallow
embedding of its view-navigation and asynchronous-data layer.  Pure render
helpers become Lean functions; the React component state plus its effect and
response callbacks become explicit state-passing step functions.  Each
definition is translated from one source function and keeps its name.
-/

/-- One equipment record as consumed by the list views (fields used by
CategoryView: EquipmentID, Status, Customer, JobSiteName, ExpectedReturnDate). -/
structure EquipmentRecord where
  EquipmentID : String
  Status : String
  Customer : Option String
  JobSiteName : Option String
  ExpectedReturnDate : Option String
  deriving DecidableEq, Repr

/-- The predicate passed to equipment.filter in CategoryView (part_000,
filteredEquipment): All keeps everything; the In-Use branch compares the
Status field with the literal string In-Use; every other filter compares the
Status field with the filter string itself.  Comparison is exact string
equality, exactly as in the source. -/
def filterMatches (activeFilter : String) (item : EquipmentRecord) : Bool :=
  if activeFilter = "All" then true
  else if activeFilter = "In-Use" then item.Status == "In-Use"
  else item.Status == activeFilter

/-- CategoryView filteredEquipment = equipment.filter(filterMatches). -/
def filteredEquipment (equipment : List EquipmentRecord)
    (activeFilter : String) : List EquipmentRecord :=
  equipment.filter (filterMatches activeFilter)

/-- C2: for every record list R and filter predicate P the projection is a
subsequence of R in original order (so it never reorders, duplicates or
invents records; as a pure function it cannot mutate R), and the All
predicate returns exactly R. -/
theorem C2_filter_projection_sublist_all (R : List EquipmentRecord) (P : String) :
    List.Sublist (filteredEquipment R P) R ∧ filteredEquipment R "All" = R := by
  constructor
  · exact List.filter_sublist R
  · simp [filteredEquipment, filterMatches]

/-- C3 counterexample: a record whose status tag is the case variant IN-USE is
NOT matched by the In-Use predicate — the projection drops it, refuting the
claim that matching is dash-and-case-insensitive. -/
theorem C3_counterexample :
    filteredEquipment
      [{ EquipmentID := "EX-1", Status := "IN-USE", Customer := none,
         JobSiteName := none, ExpectedReturnDate := none }] "In-Use" = [] := rfl

/-- C3 (amended): for every non-All predicate the projection selects exactly
the records whose Status string equals the predicate string under exact
comparison (the special In-Use branch also compares with the literal In-Use);
case or punctuation variants are not matched. -/
theorem C3_exact_status_match (R : List EquipmentRecord) (P : String)
    (hP : P ≠ "All") (r : EquipmentRecord) :
    r ∈ filteredEquipment R P ↔ r ∈ R ∧ r.Status = P := by
  simp only [filteredEquipment, List.mem_filter]
  by_cases hIn : P = "In-Use"
  · subst hIn
    simp [filterMatches, hP]
  · simp [filterMatches, hP, hIn]

/-- C3 witness: instantiation of the amended theorem at a concrete record with
the exact status In-Use and the In-Use predicate. -/
theorem C3_exact_status_match_witness :
    ({ EquipmentID := "EX-1", Status := "In-Use", Customer := none,
       JobSiteName := none, ExpectedReturnDate := none } : EquipmentRecord) ∈
      filteredEquipment
        [{ EquipmentID := "EX-1", Status := "In-Use", Customer := none,
           JobSiteName := none, ExpectedReturnDate := none }] "In-Use" ↔
    ({ EquipmentID := "EX-1", Status := "In-Use", Customer := none,
       JobSiteName := none, ExpectedReturnDate := none } : EquipmentRecord) ∈
      [{ EquipmentID := "EX-1", Status := "In-Use", Customer := none,
         JobSiteName := none, ExpectedReturnDate := none }] ∧
    ({ EquipmentID := "EX-1", Status := "In-Use", Customer := none,
       JobSiteName := none, ExpectedReturnDate := none } : EquipmentRecord).Status
      = "In-Use" :=
  C3_exact_status_match
    [{ EquipmentID := "EX-1", Status := "In-Use", Customer := none,
       JobSiteName := none, ExpectedReturnDate := none }] "In-Use"
    (by decide)
    { EquipmentID := "EX-1", Status := "In-Use", Customer := none,
      JobSiteName := none, ExpectedReturnDate := none }

/-!
CategoryView (part_000, first revision): component state, the effect that runs
on mount and on every category change, and the response/catch/finally
callbacks of the axios get.  An in-flight request is recorded as a pair of a
fresh request id and the category it was issued for; the response callbacks of
the source consult only the component state and never compare the request with
the current category (there is no generation token), and the embedding keeps
that faithfully.
-/

/-- Payload of a resolved list request: res.data.data is an array
(wellFormed), res.data.data fails the Array.isArray check (malformed), or the
promise rejected (networkFailure). -/
inductive CatPayload where
  | wellFormed (data : List EquipmentRecord)
  | malformed
  | networkFailure
  deriving DecidableEq, Repr

/-- CategoryView component state: the four useState slots plus the in-flight
requests and a fresh-id counter for them. -/
structure CatState where
  category : String
  equipment : List EquipmentRecord
  isLoading : Bool
  error : String
  activeFilter : String
  pending : List (Nat × String)
  nextId : Nat
  deriving DecidableEq, Repr

/-- Body of the CategoryView useEffect: setIsLoading(true), setEquipment([]),
setError(""), then issue the list request for the current category. -/
def catEffect (s : CatState) : CatState :=
  { s with isLoading := true, equipment := [], error := "",
           pending := s.pending ++ [(s.nextId, s.category)],
           nextId := s.nextId + 1 }

/-- Mounting CategoryView with a category: the useState initializers followed
by the first run of the effect. -/
def catMount (category : String) : CatState :=
  catEffect { category := category, equipment := [], isLoading := true,
              error := "", activeFilter := "All", pending := [], nextId := 0 }

/-- The category prop changes while the component stays mounted: the effect
re-runs for the new category (useState slots are not re-initialized). -/
def catSetCategory (s : CatState) (category : String) : CatState :=
  catEffect { s with category := category }

/-- A pending request resolves: the then/catch/finally callbacks run exactly
as written — setEquipment(res.data.data) on a well-formed payload, setError on
a malformed payload or a rejection, setIsLoading(false) in finally.  No check
relates the request to the current category. -/
def catResolve (s : CatState) (id : Nat) (p : CatPayload) : CatState :=
  match s.pending.find? (fun q => q.1 == id) with
  | none => s
  | some _ =>
    let s1 := { s with pending := s.pending.filter (fun q => q.1 != id) }
    let s2 :=
      match p with
      | .wellFormed data => { s1 with equipment := data }
      | .malformed =>
          { s1 with error := "Received invalid data format from the server." }
      | .networkFailure =>
          { s1 with error := "Could not load equipment details." }
    { s2 with isLoading := false }

/-- What CategoryView renders: a full-screen loading message, a full-screen
error message, or the table of filtered rows (an empty row list renders the
no-equipment-matches placeholder row instead of data rows). -/
inductive CatRendered where
  | loading (category : String)
  | errorScreen (msg : String)
  | table (rows : List EquipmentRecord)
  deriving DecidableEq, Repr

/-- CategoryView render: if (isLoading) loading; if (error) error; otherwise
the table over filteredEquipment. -/
def catRender (s : CatState) : CatRendered :=
  if s.isLoading then .loading s.category
  else if s.error ≠ "" then .errorScreen s.error
  else .table (filteredEquipment s.equipment s.activeFilter)

/-- A concrete record used in the stale-response trace. -/
def excRecord : EquipmentRecord :=
  { EquipmentID := "EX-1", Status := "Available", Customer := none,
    JobSiteName := none, ExpectedReturnDate := none }

/-- C1: evaluation of the code at the failing trace.  Mount for category
Excavator (request 0 in flight), change the category to Crane before request 0
resolves (request 1 in flight), then let the late request 0 resolve with a
non-empty list: the response callback has no generation token, so it writes
the stale Excavator rows into the visible equipment list and clears
isLoading while Crane is the active category — the screen renders the stale
table.  This contradicts the claim that a late response whose generation does
not match is discarded with no mutation of visible state. -/
theorem C1_stale_response_populates_screen :
    (catResolve (catSetCategory (catMount "Excavator") "Crane") 0
        (CatPayload.wellFormed [excRecord])).category = "Crane" ∧
    (catResolve (catSetCategory (catMount "Excavator") "Crane") 0
        (CatPayload.wellFormed [excRecord])).equipment = [excRecord] ∧
    (catResolve (catSetCategory (catMount "Excavator") "Crane") 0
        (CatPayload.wellFormed [excRecord])).isLoading = false ∧
    catRender (catResolve (catSetCategory (catMount "Excavator") "Crane") 0
        (CatPayload.wellFormed [excRecord])) = CatRendered.table [excRecord] :=
  ⟨rfl, rfl, rfl, rfl⟩

/-!
Dashboard (Dashboard.js): summary state, the single load-on-entry summary
request, and the summary-card rendering with its falsy-to-zero count display.
-/

/-- A JSON number slot inside a statuses mapping: a number, or null.  A key
may also be absent from the mapping (Option none at lookup). -/
inductive JsonNum where
  | num (n : Int)
  | null
  deriving DecidableEq, Repr

/-- One element of the summary payload: { category, statuses }. -/
structure SummaryEntry where
  category : String
  statuses : List (String × JsonNum)
  deriving DecidableEq, Repr

/-- Payload of the resolved summary request. -/
inductive DashPayload where
  | wellFormed (data : List SummaryEntry)
  | malformed
  | networkFailure
  deriving DecidableEq, Repr

/-- Dashboard component state: the two useState slots plus whether the single
load-on-entry request is still in flight. -/
structure DashState where
  summary : List SummaryEntry
  error : String
  pending : Bool
  deriving DecidableEq, Repr

/-- Mounting Dashboard: useState initializers, effect issues the summary
request. -/
def dashInit : DashState :=
  { summary := [], error := "", pending := true }

/-- The summary request resolves: setSummary(res.data.data) when it is an
array, setError("Received invalid data format from server.") otherwise,
setError("Could not connect to the backend server.") on rejection. -/
def dashResolve (s : DashState) (p : DashPayload) : DashState :=
  if s.pending then
    let s1 := { s with pending := false }
    match p with
    | .wellFormed d => { s1 with summary := d }
    | .malformed =>
        { s1 with error := "Received invalid data format from server." }
    | .networkFailure =>
        { s1 with error := "Could not connect to the backend server." }
  else s

/-- The JS expression statuses.Total || 0 (and its three siblings): property
lookup on the statuses mapping, then JS truthiness — an absent key, a null
value and the number 0 are all displayed as 0. -/
def statusCount (statuses : List (String × JsonNum)) (k : String) : Int :=
  match statuses.lookup k with
  | some (.num n) => if n = 0 then 0 else n
  | some .null => 0
  | none => 0

/-- The four counts shown on one summary card. -/
structure Card where
  category : String
  total : Int
  available : Int
  inUse : Int
  maintenance : Int
  deriving DecidableEq, Repr

/-- Rendering of one summary card in Dashboard: statuses.Total || 0,
statuses.Available || 0, statuses["In-Use"] || 0, statuses.Maintenance || 0. -/
def renderSummaryCard (e : SummaryEntry) : Card :=
  { category := e.category
    total := statusCount e.statuses "Total"
    available := statusCount e.statuses "Available"
    inUse := statusCount e.statuses "In-Use"
    maintenance := statusCount e.statuses "Maintenance" }

/-- What Dashboard renders: loading, full-screen error, or the card grid. -/
inductive DashRendered where
  | loading
  | errorScreen (msg : String)
  | grid (cards : List Card)
  deriving DecidableEq, Repr

/-- Dashboard render: if (error) error; if (summary.length === 0) loading;
otherwise the grid of summary cards. -/
def dashRender (s : DashState) : DashRendered :=
  if s.error ≠ "" then .errorScreen s.error
  else if s.summary.length = 0 then .loading
  else .grid (s.summary.map renderSummaryCard)

/-- True exactly on the error-screen render, which carries only a message and
no cards (full-screen error, no partial content). -/
def dashIsErrorScreen : DashRendered → Bool
  | .errorScreen _ => true
  | _ => false

/-- True exactly on the CategoryView error-screen render, which carries only a
message and no rows. -/
def catIsErrorScreen : CatRendered → Bool
  | .errorScreen _ => true
  | _ => false

/-- C4: a well-formed HTTP success whose data field is not a sequence drives
both load-on-entry collection fetches (Dashboard summary, CategoryView list)
into the failure state carrying the invalid-data-format message, rendered as
the same full-screen error constructor — with no cards and no rows — that a
transport failure produces. -/
theorem C4_malformed_payload_failure (cat : String) :
    dashRender (dashResolve dashInit DashPayload.malformed) =
      DashRendered.errorScreen "Received invalid data format from server." ∧
    catRender (catResolve (catMount cat) 0 CatPayload.malformed) =
      CatRendered.errorScreen "Received invalid data format from the server." ∧
    dashIsErrorScreen
      (dashRender (dashResolve dashInit DashPayload.networkFailure)) = true ∧
    catIsErrorScreen
      (catRender (catResolve (catMount cat) 0 CatPayload.networkFailure)) = true :=
  ⟨rfl, rfl, rfl, rfl⟩

/-!
CategoryView (part_001 revision): same request flow but no isLoading slot —
the render infers loading from an empty equipment list with no error.
-/

/-- part_001 CategoryView component state: equipment and error useState slots
plus the in-flight requests and a fresh-id counter. -/
structure Cat001State where
  category : String
  equipment : List EquipmentRecord
  error : String
  pending : List (Nat × String)
  nextId : Nat
  deriving DecidableEq, Repr

/-- Body of the part_001 useEffect: setEquipment([]), setError(""), issue the
list request for the current category. -/
def cat001Effect (s : Cat001State) : Cat001State :=
  { s with equipment := [], error := "",
           pending := s.pending ++ [(s.nextId, s.category)],
           nextId := s.nextId + 1 }

/-- Mounting the part_001 CategoryView. -/
def cat001Mount (category : String) : Cat001State :=
  cat001Effect { category := category, equipment := [], error := "",
                 pending := [], nextId := 0 }

/-- A pending part_001 request resolves: setEquipment on a well-formed
payload, setError on a malformed payload or a rejection (no finally clause,
no isLoading slot). -/
def cat001Resolve (s : Cat001State) (id : Nat) (p : CatPayload) : Cat001State :=
  match s.pending.find? (fun q => q.1 == id) with
  | none => s
  | some _ =>
    let s1 := { s with pending := s.pending.filter (fun q => q.1 != id) }
    match p with
    | .wellFormed data => { s1 with equipment := data }
    | .malformed =>
        { s1 with error := "Received invalid data format from the server." }
    | .networkFailure =>
        { s1 with error :=
            "Could not load equipment details. Please ensure the backend is running." }

/-- part_001 CategoryView render: if (error) error; if (equipment.length === 0
and no error) loading; otherwise the table of all rows (no filter in this
revision). -/
def cat001Render (s : Cat001State) : CatRendered :=
  if s.error ≠ "" then .errorScreen s.error
  else if s.equipment.length = 0 ∧ s.error = "" then .loading s.category
  else .table s.equipment

/-- C6 counterexample: the Dashboard summary request resolves successfully
with an empty collection — a terminal state (nothing pending) — yet the
screen renders the loading state, refuting the claim that loading is never
shown after the load-on-entry request reaches a terminal state.  The part_001
CategoryView behaves the same way. -/
theorem C6_counterexample :
    (dashResolve dashInit (DashPayload.wellFormed [])).pending = false ∧
    dashRender (dashResolve dashInit (DashPayload.wellFormed [])) =
      DashRendered.loading ∧
    (cat001Resolve (cat001Mount "Excavator") 0
        (CatPayload.wellFormed [])).pending = [] ∧
    cat001Render (cat001Resolve (cat001Mount "Excavator") 0
        (CatPayload.wellFormed [])) = CatRendered.loading "Excavator" :=
  ⟨rfl, rfl, rfl, rfl⟩

/-- C6 (amended): after the load-on-entry request settles, the Dashboard and
the part_001 CategoryView each render exactly one of the three presentable
states — never an indeterminate blank — characterized by the payload: a
failure (transport or malformed) renders the full-screen error, a successful
non-empty collection renders the populated view, but a successful EMPTY
collection renders the loading state, not a populated empty view. -/
theorem C6_presentable_state_characterization
    (p : DashPayload) (q : CatPayload) (cat : String) :
    (dashRender (dashResolve dashInit p) =
      match p with
      | .wellFormed [] => DashRendered.loading
      | .wellFormed d => DashRendered.grid (d.map renderSummaryCard)
      | .malformed =>
          DashRendered.errorScreen "Received invalid data format from server."
      | .networkFailure =>
          DashRendered.errorScreen "Could not connect to the backend server.") ∧
    (cat001Render (cat001Resolve (cat001Mount cat) 0 q) =
      match q with
      | .wellFormed [] => CatRendered.loading cat
      | .wellFormed d => CatRendered.table d
      | .malformed =>
          CatRendered.errorScreen "Received invalid data format from the server."
      | .networkFailure =>
          CatRendered.errorScreen
            "Could not load equipment details. Please ensure the backend is running.") := by
  constructor
  · cases p with
    | wellFormed d => cases d with
      | nil => rfl
      | cons e es => rfl
    | malformed => rfl
    | networkFailure => rfl
  · cases q with
    | wellFormed d => cases d with
      | nil => rfl
      | cons e es => rfl
    | malformed => rfl
    | networkFailure => rfl

/-- The statuses mapping lacks the key, or maps it to a JS-falsy value (null
or the number 0). -/
def falsyAt (statuses : List (String × JsonNum)) (k : String) : Prop :=
  statuses.lookup k = none ∨ statuses.lookup k = some JsonNum.null ∨
    statuses.lookup k = some (JsonNum.num 0)

/-- C9: on the Dashboard ready state, a summary entry whose statuses mapping
lacks one of the four count keys or maps it to a falsy value renders that
count as 0 on its card (never blank, never a failure). -/
theorem C9_missing_or_falsy_count_zero (e : SummaryEntry) (k : String)
    (hk : k = "Total" ∨ k = "Available" ∨ k = "In-Use" ∨ k = "Maintenance")
    (hf : falsyAt e.statuses k) :
    statusCount e.statuses k = 0 ∧
    (k = "Total" → (renderSummaryCard e).total = 0) ∧
    (k = "Available" → (renderSummaryCard e).available = 0) ∧
    (k = "In-Use" → (renderSummaryCard e).inUse = 0) ∧
    (k = "Maintenance" → (renderSummaryCard e).maintenance = 0) := by
  have h0 : statusCount e.statuses k = 0 := by
    rcases hf with h | h | h <;> simp [statusCount, h]
  refine ⟨h0, ?_, ?_, ?_, ?_⟩ <;> intro hkey <;>
    simpa [renderSummaryCard, hkey] using h0

/-- C9 witness: a summary entry with an empty statuses mapping renders a zero
Total count. -/
theorem C9_missing_or_falsy_count_zero_witness :
    statusCount (SummaryEntry.mk "Excavator" []).statuses "Total" = 0 ∧
    ("Total" = "Total" →
      (renderSummaryCard (SummaryEntry.mk "Excavator" [])).total = 0) ∧
    ("Total" = "Available" →
      (renderSummaryCard (SummaryEntry.mk "Excavator" [])).available = 0) ∧
    ("Total" = "In-Use" →
      (renderSummaryCard (SummaryEntry.mk "Excavator" [])).inUse = 0) ∧
    ("Total" = "Maintenance" →
      (renderSummaryCard (SummaryEntry.mk "Excavator" [])).maintenance = 0) :=
  C9_missing_or_falsy_count_zero (SummaryEntry.mk "Excavator" []) "Total"
    (Or.inl rfl) (Or.inl rfl)

/-!
VehicleView (VehicleView.js): component state, the detail fetch, the
availability-prediction action with its catch handler, the mark-returned
action, and the render including the Mark-as-Returned button condition.
-/

/-- The vehicle detail record, with the fields this layer reads. -/
structure Vehicle where
  EquipmentID : String
  VType : String
  Status : String
  EngineHours : Int
  deriving DecidableEq, Repr

/-- The prediction object held in the prediction useState slot: either the
success payload of the availability request or the object built by its catch
handler (which carries only an error string). -/
structure Prediction where
  error : Option String
  available : Bool
  predictedReturnDate : Option String
  deriving DecidableEq, Repr

/-- The price-prediction object held in the pricePrediction useState slot:
either the success payload of the price request or the object built by its
catch handler. -/
structure PricePrediction where
  error : Option String
  predictedPrice : Rat
  deriving DecidableEq, Repr

/-- The behavioural-analysis object held in the analysisResult useState slot:
either the success payload of the analyze-behavior request or an object
carrying only an error message (JSON numbers are embedded as rationals;
sequence_data pairs a Timestamp with an EngineLoad). -/
structure AnalysisResult where
  error : Option String
  is_anomaly : Bool
  reconstruction_error : Rat
  threshold : Rat
  sequence_data : List (String × Rat)
  deriving DecidableEq, Repr

/-- VehicleView component state: the eight useState slots of VehicleView.js
(vehicle, error, prediction, date, pricePrediction, duration, analysisResult,
isAnalyzing) plus the count of in-flight detail fetches. -/
structure VehicleState where
  vehicle : Option Vehicle
  error : String
  prediction : Option Prediction
  date : String
  pricePrediction : Option PricePrediction
  duration : Int
  analysisResult : Option AnalysisResult
  isAnalyzing : Bool
  detailRequests : Nat
  deriving DecidableEq, Repr

/-- fetchVehicleData: issue one GET for the vehicle detail (no state slot is
written until the response arrives). -/
def fetchVehicleData (s : VehicleState) : VehicleState :=
  { s with detailRequests := s.detailRequests + 1 }

/-- The then-callback of fetchVehicleData: setVehicle(res.data). -/
def fetchVehicleDataThen (s : VehicleState) (rec : Vehicle) : VehicleState :=
  { s with vehicle := some rec, detailRequests := s.detailRequests - 1 }

/-- The then-callback of handleReturnVehicle on success: the response body is
ignored and fetchVehicleData() is called — nothing else. -/
def handleReturnVehicleThen (s : VehicleState) (ack : String) : VehicleState :=
  fetchVehicleData s

/-- The JS expression err.response?.data?.error || "Could not get prediction."
from the catch handler of handleAvailabilityPrediction: the optional chain
yields the error field when the response body has one; the or-operator falls
back when that is absent or is the (falsy) empty string. -/
def predictionCatchMessage (errField : Option String) : String :=
  match errField with
  | some s => if s = "" then "Could not get prediction." else s
  | none => "Could not get prediction."

/-- The catch handler of handleAvailabilityPrediction: setPrediction({ error:
... }) — only the error field is set; the absent available field is falsy. -/
def availabilityPredictionCatch (errField : Option String) : Prediction :=
  { error := some (predictionCatchMessage errField), available := false,
    predictedReturnDate := none }

/-- What the prediction card area renders. -/
inductive PredCard where
  | noCard
  | errorCard (msg : String)
  | availableCard
  | inUseCard (predictedReturnDate : Option String)
  deriving DecidableEq, Repr

/-- renderPredictionResult: null renders nothing; a truthy pred.error renders
the error card with exactly that string; otherwise pred.available selects the
available or in-use card. -/
def renderPredictionResult (pred : Option Prediction) : PredCard :=
  match pred with
  | none => .noCard
  | some p =>
    match p.error with
    | some e =>
        if e = "" then
          (if p.available then .availableCard else .inUseCard p.predictedReturnDate)
        else .errorCard e
    | none =>
        if p.available then .availableCard else .inUseCard p.predictedReturnDate

/-- C5 counterexample: an error response whose body carries the error string
"" (a server-supplied string, so the error field is present) makes the
prediction card display the generic fallback, not that string — refuting the
claim that the fallback is shown only when the error field is absent. -/
theorem C5_counterexample :
    renderPredictionResult (some (availabilityPredictionCatch (some ""))) =
      PredCard.errorCard "Could not get prediction." ∧
    "Could not get prediction." ≠ "" := ⟨rfl, by decide⟩

/-- C5 (amended): for every failed availability-prediction request whose error
response body carries a NON-EMPTY error string, the prediction card displays
exactly that string; the generic fallback is shown when the error field is
absent or is the empty string. -/
theorem C5_server_error_string_preferred (s : String) (hs : s ≠ "") :
    renderPredictionResult (some (availabilityPredictionCatch (some s))) =
      PredCard.errorCard s ∧
    renderPredictionResult (some (availabilityPredictionCatch none)) =
      PredCard.errorCard "Could not get prediction." ∧
    renderPredictionResult (some (availabilityPredictionCatch (some ""))) =
      PredCard.errorCard "Could not get prediction." := by
  refine ⟨?_, rfl, rfl⟩
  simp [renderPredictionResult, availabilityPredictionCatch,
        predictionCatchMessage, hs]

/-- C5 witness: instantiation at the concrete server string from the spec
scenario. -/
theorem C5_server_error_string_preferred_witness :
    renderPredictionResult
        (some (availabilityPredictionCatch (some "model unavailable"))) =
      PredCard.errorCard "model unavailable" ∧
    renderPredictionResult (some (availabilityPredictionCatch none)) =
      PredCard.errorCard "Could not get prediction." ∧
    renderPredictionResult (some (availabilityPredictionCatch (some ""))) =
      PredCard.errorCard "Could not get prediction." :=
  C5_server_error_string_preferred "model unavailable" (by decide)

/-- C7: the success callback of markReturned stores nothing from the response
and leaves every state slot of the screen unchanged — vehicle record, error,
availability prediction, chosen date, price prediction, duration, analysis
result, analyzing flag — its only effect being one new detail fetch; the
displayed record then changes only when that re-fetch resolves with the
authoritative record. -/
theorem C7_markReturned_refetch_frame (s : VehicleState) (ack : String) :
    (handleReturnVehicleThen s ack).vehicle = s.vehicle ∧
    (handleReturnVehicleThen s ack).error = s.error ∧
    (handleReturnVehicleThen s ack).prediction = s.prediction ∧
    (handleReturnVehicleThen s ack).date = s.date ∧
    (handleReturnVehicleThen s ack).pricePrediction = s.pricePrediction ∧
    (handleReturnVehicleThen s ack).duration = s.duration ∧
    (handleReturnVehicleThen s ack).analysisResult = s.analysisResult ∧
    (handleReturnVehicleThen s ack).isAnalyzing = s.isAnalyzing ∧
    (handleReturnVehicleThen s ack).detailRequests = s.detailRequests + 1 ∧
    (∀ rec : Vehicle,
      (fetchVehicleDataThen (handleReturnVehicleThen s ack) rec).vehicle =
        some rec) :=
  ⟨rfl, rfl, rfl, rfl, rfl, rfl, rfl, rfl, rfl, fun _ => rfl⟩

/-- What VehicleView renders: full-screen error, loading, or the detail page
with the Mark-as-Returned button present or absent. -/
inductive VehicleRendered where
  | loading
  | errorScreen (msg : String)
  | detail (v : Vehicle) (returnButton : Bool)
  deriving DecidableEq, Repr

/-- VehicleView render: if (error) error; if (!vehicle) loading; otherwise the
detail page, whose header shows the Mark-as-Returned button exactly when
vehicle.Status === "In-Use". -/
def vehicleRender (s : VehicleState) : VehicleRendered :=
  if s.error ≠ "" then .errorScreen s.error
  else
    match s.vehicle with
    | none => .loading
    | some v => .detail v (v.Status == "In-Use")

/-- The Mark-as-Returned action is reachable exactly when its button is in the
rendered output. -/
def showsReturnButton : VehicleRendered → Bool
  | .detail _ b => b
  | _ => false

/-- C10: in every render state of the Vehicle screen, the Mark-as-Returned
button is offered if and only if no error is shown, a vehicle record is
loaded, and its Status equals the exact string In-Use; in every other state no
return-vehicle request can be issued, since only that button calls
handleReturnVehicle. -/
theorem C10_return_button_iff_in_use (s : VehicleState) :
    showsReturnButton (vehicleRender s) = true ↔
      s.error = "" ∧ ∃ v, s.vehicle = some v ∧ v.Status = "In-Use" := by
  by_cases he : s.error = ""
  · rcases hv : s.vehicle with _ | v <;>
      simp [vehicleRender, showsReturnButton, he, hv]
  · simp [vehicleRender, showsReturnButton, he]

/-!
App router (part_005): the single view useState slot, navigateTo, and the
renderView switch over view.name.
-/

/-- The view useState slot: { name, props }. -/
structure View where
  name : String
  props : List (String × String)
  deriving DecidableEq, Repr

/-- navigateTo(name, props): setView({ name, props }) — the previous view is
replaced unconditionally, with no validation and no history stack. -/
def navigateTo (v : View) (name : String) (props : List (String × String)) :
    View :=
  { name := name, props := props }

/-- The screen component chosen by renderView. -/
inductive Screen where
  | dashboard
  | categoryScreen (props : List (String × String))
  | vehicleScreen (props : List (String × String))
  | sustainability
  | bim
  deriving DecidableEq, Repr

/-- renderView: the switch over view.name — category, vehicle, sustainability,
bim, and both the dashboard case and the default case render Dashboard. -/
def renderView (v : View) : Screen :=
  if v.name = "category" then .categoryScreen v.props
  else if v.name = "vehicle" then .vehicleScreen v.props
  else if v.name = "sustainability" then .sustainability
  else if v.name = "bim" then .bim
  else .dashboard

/-- C8: for EVERY call, navigateTo replaces the single active view reference
unconditionally — the result never depends on the previous view and no
kind/params combination is rejected — and whenever the kind lies outside the
four non-default screen kinds (in particular for every kind outside the known
set) the rendered screen falls back to Dashboard. -/
theorem C8_navigate_replaces_unknown_falls_back
    (v : View) (kind : String) (props : List (String × String)) :
    navigateTo v kind props = { name := kind, props := props } ∧
    (kind ≠ "category" → kind ≠ "vehicle" → kind ≠ "sustainability" →
      kind ≠ "bim" →
      renderView (navigateTo v kind props) = Screen.dashboard) := by
  refine ⟨rfl, fun h1 h2 h3 h4 => ?_⟩
  simp [navigateTo, renderView, h1, h2, h3, h4]

/-- C8 witness: navigating to the unknown kind settings from the dashboard
replaces the view and renders Dashboard. -/
theorem C8_navigate_replaces_unknown_falls_back_witness :
    navigateTo { name := "dashboard", props := [] } "settings" [] =
      { name := "settings", props := ([] : List (String × String)) } ∧
    renderView (navigateTo { name := "dashboard", props := [] } "settings" []) =
      Screen.dashboard :=
  ⟨(C8_navigate_replaces_unknown_falls_back
      { name := "dashboard", props := [] } "settings" []).1,
   (C8_navigate_replaces_unknown_falls_back
      { name := "dashboard", props := [] } "settings" []).2
     (by decide) (by decide) (by decide) (by decide)⟩
